import Mathlib

/-!
Verification of the OBS-recording / Google-Drive-upload application.

The Python sources are shallowly embedded: the Google Drive backend is
modelled as a finite store of nodes with opaque numeric IDs, the OBS
websocket backend as an environment of call outcomes, and every fallible
backend call as an explicit outcome value.  Each embedded definition keeps
the name of the Python function it translates
(`src/core/google_drive_manager.py`, `src/core/obs_manager.py`,
`src/ui/main_window.py`).
-/

namespace ObsDrive

/-- A node in the Drive store: file or folder, with its backend-assigned
opaque id, name, single parent and trashed flag. -/
structure DriveNode where
  id : Nat
  name : String
  parent : Nat
  isFolder : Bool
  trashed : Bool
deriving DecidableEq, Repr

/-- The remote Drive store: current nodes plus the next fresh id the
backend will assign on creation. -/
structure DriveState where
  nodes : List DriveNode
  nextId : Nat
deriving DecidableEq, Repr

/-- `GoogleDriveManager.SHARED_FOLDER_ID` — the configured root shared
folder ("1etyTblY2gBnmK5gVG4I-sIqQGwrsyw99"), abstracted to the opaque id 0. -/
def SHARED_FOLDER_ID : Nat := 0

/-- The query issued by `get_or_create_folder`:
`name='..' and mimeType='..folder' and '<parent>' in parents and trashed=false`. -/
def folderQuery (s : DriveState) (folder_name : String) (parent_id : Nat) : List DriveNode :=
  s.nodes.filter
    (fun n => n.name == folder_name && n.isFolder && n.parent == parent_id && !n.trashed)

/-- `files().create` for a folder: the backend assigns the next fresh id. -/
def createFolder (s : DriveState) (folder_name : String) (parent_id : Nat) :
    Nat × DriveState :=
  (s.nextId,
   { nodes := s.nodes ++ [⟨s.nextId, folder_name, parent_id, true, false⟩],
     nextId := s.nextId + 1 })

/-- `files().create` for a regular file under a parent folder. -/
def createFile (s : DriveState) (file_name : String) (parent_id : Nat) :
    Nat × DriveState :=
  (s.nextId,
   { nodes := s.nodes ++ [⟨s.nextId, file_name, parent_id, false, false⟩],
     nextId := s.nextId + 1 })

/-- `GoogleDriveManager.get_or_create_folder(folder_name, parent_id=None)`.
Returns the resulting id, the resulting Drive state, and the list of backend
calls performed. A missing `parent_id` defaults to `SHARED_FOLDER_ID`.
If the list query has matches the first match's id is returned and nothing
is created; otherwise the folder is created under the parent. -/
def get_or_create_folder (s : DriveState) (folder_name : String)
    (parent_id : Option Nat) : Nat × DriveState × List String :=
  let pid := parent_id.getD SHARED_FOLDER_ID
  match folderQuery s folder_name pid with
  | item :: _ => (item.id, s, ["files.list"])
  | [] =>
    let r := createFolder s folder_name pid
    (r.1, r.2, ["files.list", "files.create"])

/-- `get_or_create_class_year_folder(class_name, year)`:
resolves `f"{class_name}_{year}"` under the shared root. -/
def get_or_create_class_year_folder (s : DriveState) (class_name year : String) :
    Nat × DriveState × List String :=
  get_or_create_folder s (class_name ++ "_" ++ year) none

/-- `get_or_create_chapter_folder(chapter_name, class_year_folder_id)`. -/
def get_or_create_chapter_folder (s : DriveState) (chapter_name : String)
    (class_year_folder_id : Nat) : Nat × DriveState × List String :=
  get_or_create_folder s chapter_name (some class_year_folder_id)

/-- Boolean substring test on character lists (the Drive query operator
`name contains '...'`, modelled as substring matching). -/
def substringB (needle : List Char) : List Char → Bool
  | [] => needle.isEmpty
  | c :: rest => needle.isPrefixOf (c :: rest) || substringB needle rest

/-- Failure behaviour of the backend during counting: for a given folder id,
whether the first `files().list` call (children) or the second one
(subfolders) raises. -/
structure ListEnv where
  fail1 : Nat → Bool
  fail2 : Nat → Bool

/-- The first query of `count_files_in_folder`:
`'<folder>' in parents and trashed=false` plus, when an extension filter is
given, `and name contains '.<ext>'`. -/
def childFiles (s : DriveState) (folder_id : Nat) (file_extension : Option String) :
    List DriveNode :=
  s.nodes.filter (fun n =>
    n.parent == folder_id && !n.trashed &&
      (match file_extension with
       | none => true
       | some e => substringB ("." ++ e).toList n.name.toList))

/-- The second query of `count_files_in_folder`:
`'<folder>' in parents and mimeType='..folder' and trashed=false`. -/
def childFolders (s : DriveState) (folder_id : Nat) : List DriveNode :=
  s.nodes.filter (fun n => n.parent == folder_id && n.isFolder && !n.trashed)

/-- `GoogleDriveManager.count_files_in_folder(folder_id, file_extension)`.
Counts matching children of the folder plus, recursively, of every
non-trashed subfolder.  The whole body is wrapped in `try/except` that
returns 0, so a failure of either list call makes that invocation yield 0
(recursive invocations swallow their own failures the same way).  `fuel`
bounds the recursion depth (the Python recursion is bounded by the finite
folder tree).  Returns the count and the backend calls performed. -/
def count_files_in_folder (env : ListEnv) (s : DriveState) :
    Nat → Nat → Option String → Nat × List String
  | 0, _, _ => (0, [])
  | fuel + 1, folder_id, file_extension =>
    if env.fail1 folder_id then (0, ["files.list"])
    else if env.fail2 folder_id then (0, ["files.list", "files.list"])
    else
      let sub := (childFolders s folder_id).map
        (fun f => count_files_in_folder env s fuel f.id file_extension)
      ((childFiles s folder_id file_extension).length + (sub.map Prod.fst).sum,
       ["files.list", "files.list"] ++ (sub.map Prod.snd).flatten)

/-- `os.path.splitext(p)`: split off the extension at the last dot of the
final path component, provided that dot is preceded (within the component)
by at least one non-dot character; otherwise the extension is empty. -/
def pySplitext (p : String) : String × String :=
  let cs := p.data
  let sp := cs.reverse.span (fun c => c ≠ '.' && c ≠ '/')
  match sp.2 with
  | [] => (p, "")
  | c :: revPre =>
    if c = '/' then (p, "")
    else
      if (revPre.takeWhile (fun d => d ≠ '/')).any (fun d => d ≠ '.') then
        (String.mk revPre.reverse, String.mk ('.' :: sp.1.reverse))
      else (p, "")

/-- Error kinds raised inside the upload pipeline. -/
inductive UploadError where
  | fileNotFound
  | typeError
deriving DecidableEq, Repr

/-- `GoogleDriveManager.upload_file(filepath, class_name, chapter_name, year,
subtopic_name="Main")`.  `file_exists` is the result of
`os.path.exists(filepath)`; `today` is `datetime.now().strftime('%d-%m-%Y')`.
Returns the outcome (file id and remote filename on success), the resulting
Drive state, and the list of backend calls performed.  The local-file check
runs before any backend call; then the class-year, chapter and subtopic
folders are resolved in order, the `.mp4` count is taken on the chapter
folder, and the canonical filename is assembled with the local file's
extension. -/
def upload_file (s : DriveState) (cenv : ListEnv) (fuel : Nat)
    (file_exists : Bool) (filepath class_name chapter_name year subtopic_name today : String) :
    Except UploadError (Nat × String) × DriveState × List String :=
  if file_exists = false then (.error .fileNotFound, s, [])
  else
    let r1 := get_or_create_class_year_folder s class_name year
    let r2 := get_or_create_chapter_folder r1.2.1 chapter_name r1.1
    let r3 := get_or_create_folder r2.2.1 subtopic_name (some r2.1)
    let cnt := count_files_in_folder cenv r3.2.1 fuel r2.1 (some "mp4")
    let class_number := cnt.1 + 1
    let ext := (pySplitext filepath).2
    let new_filename := class_name ++ "_" ++ chapter_name ++ "_" ++ subtopic_name ++ "_" ++
      today ++ "_Class_" ++ toString class_number ++ ext
    let cf := createFile r3.2.1 new_filename r3.1
    (.ok (cf.1, new_filename), cf.2,
     r1.2.2 ++ r2.2.2 ++ r3.2.2 ++ cnt.2 ++ ["files.create"])

/-- A Python-level call to `upload_file` with a list of positional argument
values.  The signature has four parameters without defaults
(`filepath, class_name, chapter_name, year`), one default parameter
(`subtopic_name="Main"`); fewer than four positional arguments raise
`TypeError` before the body runs. -/
def call_upload_file (posArgs : List String) (s : DriveState) (cenv : ListEnv)
    (fuel : Nat) (fsExists : String → Bool) (today : String) :
    Except UploadError (Nat × String) × DriveState × List String :=
  match posArgs with
  | [fp, cn, ch, yr] => upload_file s cenv fuel (fsExists fp) fp cn ch yr "Main" today
  | [fp, cn, ch, yr, st] => upload_file s cenv fuel (fsExists fp) fp cn ch yr st today
  | _ => (.error .typeError, s, [])

/-- Python `int()` applied to a rational (truncation toward zero). -/
def pyInt (q : ℚ) : ℤ := if 0 ≤ q then ⌊q⌋ else ⌈q⌉

/-- The progress-callback loop of `upload_file`: the chunk loop repeatedly
calls `next_chunk()`; whenever a chunk reports a (truthy) status, the
callback receives `int(status.progress() * 100)`.  `reports` is the sequence
of per-chunk optional fractional progress values; the result is the sequence
of values passed to the callback. -/
def progress_values (reports : List (Option ℚ)) : List ℤ :=
  reports.filterMap (fun o => o.map (fun p => pyInt (p * 100)))

/-- Python `round()` on a rational: round half to even (banker's rounding). -/
def pyRound (q : ℚ) : ℤ :=
  if q - ⌊q⌋ < 1 / 2 then ⌊q⌋
  else if 1 / 2 < q - ⌊q⌋ then ⌊q⌋ + 1
  else if ⌊q⌋ % 2 = 0 then ⌊q⌋ else ⌊q⌋ + 1

/-- Modelled from the spec: the callback sequence the specification
describes, `progressCallback(round(progress*100))` after each reporting
chunk (spec §4.2 step 5).  Used only to compare against the code's
`progress_values`. -/
def spec_round_progress_values (reports : List (Option ℚ)) : List ℤ :=
  reports.filterMap (fun o => o.map (fun p => pyRound (p * 100)))

/-- Outcome of a `get_record_status()` call as seen by the controller:
the `output_active` field is true, is false, is absent, or the call threw. -/
inductive StatusReport where
  | active
  | inactive
  | noField
  | errorThrown
deriving DecidableEq, Repr

/-- Mutable state of `OBSManager` (the fields the recording state machine
reads and writes). -/
structure OBSState where
  is_connected : Bool
  is_recording : Bool
  has_scenes : Bool
  recording_path : Option String
  recording_filename : Option String
  last_recording_path : Option String
deriving DecidableEq, Repr

/-- `OBSManager._check_recording_status()`: returns `output_active` when the
status call succeeds and carries the field; if the field is absent or the
call threw, the controller assumes recording is active. -/
def check_recording_status : StatusReport → Bool
  | .inactive => false
  | _ => true

/-- Common shape of `_try_recording_method_1/2/3`: the preparatory
`set_record_directory` / `set_profile_parameter` calls have their failures
swallowed; a failing `start_record()` aborts the method; otherwise the
method succeeds exactly when the verification query reports active. -/
def try_recording_method (startOk : Bool) (verify : StatusReport) : Bool :=
  if startOk = false then false else check_recording_status verify

/-- Backend behaviour during one `start_recording` call: the status query
before starting, and for each of the three methods whether `start_record()`
succeeded and what the verification status reported.  The preparatory
configuration calls of methods 1 and 2 are included even though their
failures never change the control flow. -/
structure StartEnv where
  statusBefore : StatusReport
  m1DirSetOk : Bool
  m1StartOk : Bool
  m1Verify : StatusReport
  m2PathSetOk : Bool
  m2FormatSetOk : Bool
  m2StartOk : Bool
  m2Verify : StatusReport
  m3StartOk : Bool
  m3Verify : StatusReport

/-- Filesystem behaviour for the output-directory pre-checks of
`start_recording`: whether the parent directory exists, whether `mkdir`
succeeds when it does not, and whether the write test succeeds. -/
structure StartFsEnv where
  dirExists : Bool
  mkdirOk : Bool
  writable : Bool

/-- The names recorded in `debug_info['recording_methods_tried']`. -/
def method1Name : String := "SetOutputDirectory"

/-- Debug name of the second start strategy. -/
def method2Name : String := "ProfileParameters"

/-- Debug name of the third start strategy. -/
def method3Name : String := "DirectStart"

/-- `OBSManager.start_recording(output_path)`.  Returns the boolean result,
the resulting controller state, and the list of methods appended to
`debug_info['recording_methods_tried']`.  Not connected fails immediately;
then the output-directory pre-checks run; then the three methods are tried
in order, each setting `is_recording := true` and returning success as soon
as its verification reports active; if all three fail, the flag is set
manually and success is returned anyway. -/
def start_recording (st : OBSState) (fs : StartFsEnv) (env : StartEnv)
    (output_parent output_stem : String) : Bool × OBSState × List String :=
  if st.is_connected = false then (false, st, [])
  else
    let st0 := { st with has_scenes := true }
    if fs.dirExists = false && fs.mkdirOk = false then (false, st0, [])
    else if fs.writable = false then (false, st0, [])
    else
      let st1 := { st0 with recording_filename := some output_stem,
                            recording_path := some output_parent }
      if try_recording_method env.m1StartOk env.m1Verify then
        (true, { st1 with is_recording := true }, [method1Name])
      else if try_recording_method env.m2StartOk env.m2Verify then
        (true, { st1 with is_recording := true }, [method1Name, method2Name])
      else if try_recording_method env.m3StartOk env.m3Verify then
        (true, { st1 with is_recording := true }, [method1Name, method2Name, method3Name])
      else
        (true, { st1 with is_recording := true }, [method1Name, method2Name, method3Name])

/-- Outcome of the backend `stop_record()` call: success carrying an
optional `output_path` field, or a thrown exception. -/
inductive StopCallResult where
  | ok (output_path : Option String)
  | exn
deriving DecidableEq, Repr

/-- Backend behaviour during one `stop_recording` call. -/
structure StopEnv where
  statusBefore : StatusReport
  stopCall : StopCallResult
  statusAfter : StatusReport

/-- `OBSManager._check_recording_output_exists()`: when a recording path and
filename stem are known, probe the stem with each candidate extension in
order and record the first existing file as `last_recording_path`. -/
def possibleExtensions : List String := [".mp4", ".mkv", ".flv", ".mov", ".avi"]

/-- Fallback search for the recording file (see `possibleExtensions`). -/
def check_recording_output_exists (st : OBSState) (fsExists : String → Bool) : OBSState :=
  match st.recording_path, st.recording_filename with
  | some dir, some stem =>
    match (possibleExtensions.filter (fun e => fsExists (dir ++ "/" ++ stem ++ e))).head? with
    | some e => { st with last_recording_path := some (dir ++ "/" ++ stem ++ e) }
    | none => st
  | _, _ => st

/-- `OBSManager.stop_recording()`.  Not connected returns failure at once
(leaving the state untouched).  Otherwise: the status query before stopping
may clear the flag for bookkeeping; the `stop_record()` call clears
`is_recording` whether it succeeds or throws and captures the reported
output path when present; if the reported file is missing, or no path was
reported, the fallback search runs; the call returns success. -/
def stop_recording (st : OBSState) (env : StopEnv) (fsExists : String → Bool) :
    Bool × OBSState :=
  if st.is_connected = false then (false, st)
  else
    let st1 := if env.statusBefore = .inactive then { st with is_recording := false } else st
    match env.stopCall with
    | .exn =>
      (true, check_recording_output_exists { st1 with is_recording := false } fsExists)
    | .ok none =>
      (true, check_recording_output_exists { st1 with is_recording := false } fsExists)
    | .ok (some p) =>
      let st2 := { st1 with is_recording := false, last_recording_path := some p }
      if fsExists p then (true, st2)
      else (true, check_recording_output_exists st2 fsExists)

/-- `OBSManager.upload_last_recording()`.  Returns the uploaded file id or
`None`.  The Drive call passes `self.last_recording_path` as the only
positional argument of `upload_file`; every exception (including the
arity `TypeError`) is caught and turned into `None`. -/
def upload_last_recording (st : OBSState) (fsExists : String → Bool)
    (s : DriveState) (cenv : ListEnv) (fuel : Nat) (today : String) : Option Nat :=
  match st.last_recording_path with
  | none => none
  | some p =>
    if fsExists p = false then none
    else
      match (call_upload_file [p] s cenv fuel fsExists today).1 with
      | .error _ => none
      | .ok r => some r.1

/-- Python `s.rsplit('.', 1)`: split off the part after the last dot, when
a dot is present.  Returns the left part and, when a split happened, the
right part. -/
def pyRsplit1Dot (s : String) : String × Option String :=
  let sp := s.data.reverse.span (fun c => c ≠ '.')
  match sp.2 with
  | [] => (s, none)
  | _ :: revBase => (String.mk revBase.reverse, some (String.mk sp.1.reverse))

/-- The candidate target filename tried by `rename_recording_file` at loop
counter `k`: the desired name itself for `k = 0`; for `k ≥ 1` the numeric
suffix `_k` is inserted before the extension when the desired name has one,
or appended otherwise. -/
def suffixCandidate (desired : String) (k : Nat) : String :=
  if k = 0 then desired
  else
    match pyRsplit1Dot desired with
    | (base, some ext) => base ++ "_" ++ toString k ++ "." ++ ext
    | (_, none) => desired ++ "_" ++ toString k

/-- The collision loop of `MainWindow.rename_recording_file`: starting from
candidate `c`, return the first candidate name not already taken in the
target directory.  `fuel` bounds the loop (the Python loop is unbounded but
terminates on any finite directory). -/
def resolve_target (taken : List String) (desired : String) :
    Nat → Nat → Option String
  | 0, _ => none
  | fuel + 1, c =>
    if suffixCandidate desired c ∈ taken then resolve_target taken desired fuel (c + 1)
    else some (suffixCandidate desired c)

/-- `MainWindow.rename_recording_file(actual_path)`: when the source file
exists, the file is renamed within its directory to the first free
candidate name. `taken` is the set of names already present in the
directory; the result is the chosen target name (`none` when the source is
missing and the rename is skipped, or when `fuel` runs out). -/
def rename_recording_file (actualExists : Bool) (taken : List String)
    (desired : String) (fuel : Nat) : Option String :=
  if actualExists = false then none
  else resolve_target taken desired fuel 0

/-- After creating a folder in a state with no matching folder, the query
for the same name and parent returns exactly the created node. -/
theorem folderQuery_createFolder (s : DriveState) (folder_name : String) (pid : Nat)
    (h : folderQuery s folder_name pid = []) :
    folderQuery (createFolder s folder_name pid).2 folder_name pid =
      [⟨s.nextId, folder_name, pid, true, false⟩] := by
  unfold folderQuery createFolder
  unfold folderQuery at h
  simp only [List.filter_append, h, List.nil_append]
  simp

/-- C5: `get_or_create_folder` queries for a non-trashed folder with the
exact name under the parent (the configured shared root when the parent is
omitted); with one or more matches it returns the first match's id and
creates nothing; with zero matches it creates the folder under that parent
and returns its newly assigned id. -/
theorem get_or_create_folder_spec (s : DriveState) (folder_name : String)
    (parent_id : Option Nat) :
    (∀ n l, folderQuery s folder_name (parent_id.getD SHARED_FOLDER_ID) = n :: l →
      (get_or_create_folder s folder_name parent_id).1 = n.id ∧
      (get_or_create_folder s folder_name parent_id).2.1 = s ∧
      (get_or_create_folder s folder_name parent_id).2.2.count "files.create" = 0) ∧
    (folderQuery s folder_name (parent_id.getD SHARED_FOLDER_ID) = [] →
      (get_or_create_folder s folder_name parent_id).1 = s.nextId ∧
      (get_or_create_folder s folder_name parent_id).2.1.nodes =
        s.nodes ++ [⟨s.nextId, folder_name, parent_id.getD SHARED_FOLDER_ID, true, false⟩] ∧
      ∃ m ∈ folderQuery (get_or_create_folder s folder_name parent_id).2.1 folder_name
          (parent_id.getD SHARED_FOLDER_ID), m.id = (get_or_create_folder s folder_name parent_id).1) := by
  constructor
  · intro n l h
    simp [get_or_create_folder, h]
  · intro h
    have h2 := folderQuery_createFolder s folder_name (parent_id.getD SHARED_FOLDER_ID) h
    simp only [createFolder] at h2
    refine ⟨by simp [get_or_create_folder, h, createFolder],
      by simp [get_or_create_folder, h, createFolder], ?_⟩
    simp only [get_or_create_folder, h, createFolder]
    rw [h2]
    simp

/-- Witness for C5 at a concrete input: in an empty Drive the query has no
match, so the folder is created with the backend's next id. -/
theorem get_or_create_folder_spec_witness :
    folderQuery ⟨[], 5⟩ "Algebra" SHARED_FOLDER_ID = [] ∧
    (get_or_create_folder ⟨[], 5⟩ "Algebra" none).1 = 5 ∧
    (get_or_create_folder ⟨[], 5⟩ "Algebra" none).2.1.nodes =
      [⟨5, "Algebra", SHARED_FOLDER_ID, true, false⟩] := by
  have h := (get_or_create_folder_spec ⟨[], 5⟩ "Algebra" none).2 (by decide)
  exact ⟨by decide, h.1, by simpa using h.2.1⟩

/-- C6: under single-threaded use, calling `get_or_create_folder` twice
with the same name and parent returns the same id both times, leaves the
state of the first call untouched, and performs at most one backend folder
creation across the two calls. -/
theorem get_or_create_folder_idempotent (s : DriveState) (folder_name : String)
    (parent_id : Option Nat) :
    (get_or_create_folder (get_or_create_folder s folder_name parent_id).2.1
        folder_name parent_id).1 = (get_or_create_folder s folder_name parent_id).1 ∧
    (get_or_create_folder (get_or_create_folder s folder_name parent_id).2.1
        folder_name parent_id).2.1 = (get_or_create_folder s folder_name parent_id).2.1 ∧
    ((get_or_create_folder s folder_name parent_id).2.2 ++
      (get_or_create_folder (get_or_create_folder s folder_name parent_id).2.1
        folder_name parent_id).2.2).count "files.create" ≤ 1 := by
  rcases h : folderQuery s folder_name (parent_id.getD SHARED_FOLDER_ID) with _ | ⟨n, l⟩
  · have h2 := folderQuery_createFolder s folder_name (parent_id.getD SHARED_FOLDER_ID) h
    simp only [createFolder] at h2
    simp [get_or_create_folder, h, h2, createFolder]
  · simp [get_or_create_folder, h]

/-- C9: an upload invocation whose local file does not exist fails with the
`FileNotFoundError` kind, leaves the remote store untouched, and performs
no backend call at all (empty call trace): no folder resolution, counting
or transfer is attempted. -/
theorem upload_file_missing_local_file (s : DriveState) (cenv : ListEnv) (fuel : Nat)
    (filepath class_name chapter_name year subtopic_name today : String) :
    upload_file s cenv fuel false filepath class_name chapter_name year subtopic_name today =
      (.error .fileNotFound, s, []) := by
  simp [upload_file]

/-- C3: a successful upload names the remote file
`{class}_{chapter}_{subtopic}_{DD-MM-YYYY}_Class_{n}{ext}` where `n` is the
`mp4` count taken on the chapter folder (not the subtopic folder) plus one
and `ext` is the local file's extension; in particular class `11th`,
chapter `Thermodynamics`, subtopic `Main`, date `01-01-2024`, a chapter
count of 2 and a local `.mp4` file yield
`11th_Thermodynamics_Main_01-01-2024_Class_3.mp4`. -/
theorem upload_file_filename_format :
    (∀ (s : DriveState) (cenv : ListEnv) (fuel : Nat)
        (filepath class_name chapter_name year subtopic_name today : String),
      let r1 := get_or_create_class_year_folder s class_name year
      let r2 := get_or_create_chapter_folder r1.2.1 chapter_name r1.1
      let r3 := get_or_create_folder r2.2.1 subtopic_name (some r2.1)
      ∃ fid,
        (upload_file s cenv fuel true filepath class_name chapter_name year
            subtopic_name today).1 =
          .ok (fid,
            class_name ++ "_" ++ chapter_name ++ "_" ++ subtopic_name ++ "_" ++ today ++
              "_Class_" ++
              toString ((count_files_in_folder cenv r3.2.1 fuel r2.1 (some "mp4")).1 + 1) ++
              (pySplitext filepath).2)) ∧
    (upload_file
        ⟨[⟨1, "11th_2024", 0, true, false⟩, ⟨2, "Thermodynamics", 1, true, false⟩,
          ⟨3, "Main", 2, true, false⟩, ⟨4, "a.mp4", 2, false, false⟩,
          ⟨5, "b.mp4", 3, false, false⟩], 6⟩
        ⟨fun _ => false, fun _ => false⟩ 4 true "recording.mp4" "11th" "Thermodynamics"
        "2024" "Main" "01-01-2024").1 =
      .ok (6, "11th_Thermodynamics_Main_01-01-2024_Class_3.mp4") := by
  constructor
  · intro s cenv fuel filepath class_name chapter_name year subtopic_name today
    exact ⟨_, rfl⟩
  · rfl

/-- C4: whenever `last_recording_path` is set and the file exists,
`upload_last_recording` still returns `None` and can never return a file
id: its call to the Drive manager's `upload_file` passes only the file
path, omitting the three further required arguments, so the call raises
`TypeError`, which the surrounding handler swallows into `None`. -/
theorem upload_last_recording_always_none (st : OBSState) (fsExists : String → Bool)
    (s : DriveState) (cenv : ListEnv) (fuel : Nat) (today : String) (p : String)
    (hpath : st.last_recording_path = some p) (hex : fsExists p = true) :
    upload_last_recording st fsExists s cenv fuel today = none ∧
    (call_upload_file [p] s cenv fuel fsExists today).1 = .error .typeError := by
  simp [upload_last_recording, hpath, hex, call_upload_file]

/-- Witness for C4: a connected controller with an existing last recording
still gets `none` from `upload_last_recording`. -/
theorem upload_last_recording_always_none_witness :
    (⟨true, false, true, none, none, some "/x/f.mp4"⟩ : OBSState).last_recording_path =
      some "/x/f.mp4" ∧
    (fun (_ : String) => true) "/x/f.mp4" = true ∧
    upload_last_recording ⟨true, false, true, none, none, some "/x/f.mp4"⟩
      (fun _ => true) ⟨[], 0⟩ ⟨fun _ => false, fun _ => false⟩ 1 "01-01-2024" = none :=
  ⟨rfl, rfl,
    (upload_last_recording_always_none _ _ _ _ _ _ "/x/f.mp4" rfl rfl).1⟩

/-- C10: a failure of either backend listing call inside
`count_files_in_folder` is swallowed: the affected invocation returns 0
instead of propagating the error; and when its own two list calls succeed
an invocation returns the local match count plus the recursive subfolder
counts (each of which degrades to 0 on its own failure), so counting never
raises. -/
theorem count_files_failure_swallowed :
    (∀ (env : ListEnv) (s : DriveState) (fuel folder_id : Nat) (ext : Option String),
      env.fail1 folder_id = true ∨ env.fail2 folder_id = true →
      (count_files_in_folder env s (fuel + 1) folder_id ext).1 = 0) ∧
    (∀ (env : ListEnv) (s : DriveState) (fuel folder_id : Nat) (ext : Option String),
      env.fail1 folder_id = false → env.fail2 folder_id = false →
      (count_files_in_folder env s (fuel + 1) folder_id ext).1 =
        (childFiles s folder_id ext).length +
          ((childFolders s folder_id).map
            (fun f => (count_files_in_folder env s fuel f.id ext).1)).sum) := by
  constructor
  · rintro env s fuel folder_id ext (h | h)
    · simp [count_files_in_folder, h]
    · rcases h1 : env.fail1 folder_id <;> simp [count_files_in_folder, h, h1]
  · intro env s fuel folder_id ext h1 h2
    simp only [count_files_in_folder, h1, h2, Bool.false_eq_true, if_false, List.map_map]
    rfl

/-- Witness for C10: a folder whose first list call fails counts as 0 even
though it has a matching child, while a fail-free folder counts normally. -/
theorem count_files_failure_swallowed_witness :
    (⟨fun i => i == 2, fun _ => false⟩ : ListEnv).fail1 2 = true ∧
    (count_files_in_folder ⟨fun i => i == 2, fun _ => false⟩
      ⟨[⟨7, "x.mp4", 2, false, false⟩], 8⟩ 3 2 (some "mp4")).1 = 0 ∧
    (count_files_in_folder ⟨fun _ => false, fun _ => false⟩
      ⟨[⟨7, "x.mp4", 2, false, false⟩], 8⟩ 3 2 (some "mp4")).1 = 1 := by
  refine ⟨rfl, count_files_failure_swallowed.1 _ _ 2 2 _ (Or.inl rfl), ?_⟩
  exact (count_files_failure_swallowed.2 _ _ 2 2 _ rfl rfl).trans (by decide)

/-- C1: on a connected controller whose output-directory pre-checks pass,
`start_recording` attempts the three start strategies in the strict order
directory-then-start, profile-parameter, direct, exiting at the first whose
verification reports active (the tried-methods trace is exactly the prefix
up to the first success, or all three); it always returns success and sets
the recording flag, including when none of the three strategies verifies. -/
theorem start_recording_strategy_order (st : OBSState) (fs : StartFsEnv) (env : StartEnv)
    (output_parent output_stem : String) (hconn : st.is_connected = true)
    (hdir : (fs.dirExists || fs.mkdirOk) = true) (hwr : fs.writable = true) :
    (start_recording st fs env output_parent output_stem).1 = true ∧
    (start_recording st fs env output_parent output_stem).2.1.is_recording = true ∧
    (start_recording st fs env output_parent output_stem).2.2 =
      (if try_recording_method env.m1StartOk env.m1Verify then [method1Name]
       else if try_recording_method env.m2StartOk env.m2Verify then [method1Name, method2Name]
       else [method1Name, method2Name, method3Name]) ∧
    (try_recording_method env.m1StartOk env.m1Verify = false →
      try_recording_method env.m2StartOk env.m2Verify = false →
      try_recording_method env.m3StartOk env.m3Verify = false →
      (start_recording st fs env output_parent output_stem).1 = true ∧
      (start_recording st fs env output_parent output_stem).2.1.is_recording = true) := by
  have hd : ¬(fs.dirExists = false ∧ fs.mkdirOk = false) := by
    rcases h1 : fs.dirExists <;> rcases h2 : fs.mkdirOk <;> simp_all
  rcases t1 : try_recording_method env.m1StartOk env.m1Verify <;>
    rcases t2 : try_recording_method env.m2StartOk env.m2Verify <;>
      rcases t3 : try_recording_method env.m3StartOk env.m3Verify <;>
        simp [start_recording, hconn, hd, hwr, t1, t2, t3]

/-- Witness for C1: method 1 starts but fails verification, method 2
verifies; the call succeeds with the flag set and the trace stops at
method 2. -/
theorem start_recording_strategy_order_witness :
    (⟨true, false, false, none, none, none⟩ : OBSState).is_connected = true ∧
    ((⟨true, true, true⟩ : StartFsEnv).dirExists || (⟨true, true, true⟩ : StartFsEnv).mkdirOk) = true ∧
    (⟨true, true, true⟩ : StartFsEnv).writable = true ∧
    (start_recording ⟨true, false, false, none, none, none⟩ ⟨true, true, true⟩
      ⟨.inactive, true, true, .inactive, true, true, true, .active, true, .inactive⟩
      "/rec" "class").1 = true ∧
    (start_recording ⟨true, false, false, none, none, none⟩ ⟨true, true, true⟩
      ⟨.inactive, true, true, .inactive, true, true, true, .active, true, .inactive⟩
      "/rec" "class").2.1.is_recording = true ∧
    (start_recording ⟨true, false, false, none, none, none⟩ ⟨true, true, true⟩
      ⟨.inactive, true, true, .inactive, true, true, true, .active, true, .inactive⟩
      "/rec" "class").2.2 = [method1Name, method2Name] := by
  have h := start_recording_strategy_order ⟨true, false, false, none, none, none⟩
    ⟨true, true, true⟩ ⟨.inactive, true, true, .inactive, true, true, true, .active, true, .inactive⟩
    "/rec" "class" rfl rfl rfl
  exact ⟨rfl, rfl, rfl, h.1, h.2.1, h.2.2.1.trans (by decide)⟩

/-- The fallback file search never touches the recording flag. -/
theorem check_recording_output_exists_is_recording (st : OBSState)
    (fsExists : String → Bool) :
    (check_recording_output_exists st fsExists).is_recording = st.is_recording := by
  unfold check_recording_output_exists
  rcases st.recording_path with _ | d <;> rcases st.recording_filename with _ | f <;> try rfl
  rcases h : (possibleExtensions.filter (fun e => fsExists (d ++ "/" ++ f ++ e))).head? with _ | e <;>
    simp [h]

/-- C2 (amended): whenever the controller is connected, `stop_recording`
leaves `is_recording = false` on every exit path, for every behaviour of
the backend stop call (success with or without a reported output path, or
a thrown exception).  The original claim also covered the disconnected
case, which the code refutes (see the counterexample). -/
theorem stop_recording_clears_flag_when_connected (st : OBSState) (env : StopEnv)
    (fsExists : String → Bool) (h : st.is_connected = true) :
    (stop_recording st env fsExists).2.is_recording = false := by
  rcases hb : env.statusBefore <;> rcases hc : env.stopCall with ⟨_ | p⟩ | _ <;>
    simp [stop_recording, h, hb, hc, check_recording_output_exists_is_recording] <;>
      rcases fsExists p <;> simp [check_recording_output_exists_is_recording]

/-- Witness for C2's amended theorem: a connected recording controller
whose backend stop call throws still ends with the flag cleared. -/
theorem stop_recording_clears_flag_when_connected_witness :
    (⟨true, true, false, none, none, none⟩ : OBSState).is_connected = true ∧
    (stop_recording ⟨true, true, false, none, none, none⟩
      ⟨.errorThrown, .exn, .errorThrown⟩ (fun _ => false)).2.is_recording = false :=
  ⟨rfl, stop_recording_clears_flag_when_connected _ _ _ rfl⟩

/-- Counterexample to C2 as stated: invoked while not connected (with the
flag still true), `stop_recording` returns failure and leaves
`is_recording = true`. -/
theorem stop_recording_disconnected_keeps_flag :
    (stop_recording ⟨false, true, false, none, none, none⟩
      ⟨.noField, .ok none, .noField⟩ (fun _ => false)).2.is_recording = true ∧
    (stop_recording ⟨false, true, false, none, none, none⟩
      ⟨.noField, .ok none, .noField⟩ (fun _ => false)).1 = false := by
  constructor <;> rfl

/-- Python truncation is monotone on the rationals. -/
theorem pyInt_mono {a b : ℚ} (h : a ≤ b) : pyInt a ≤ pyInt b := by
  unfold pyInt
  rcases le_or_lt 0 a with ha | ha
  · rw [if_pos ha, if_pos (ha.trans h)]
    exact Int.floor_mono h
  · rw [if_neg (not_le.mpr ha)]
    rcases le_or_lt 0 b with hb | hb
    · rw [if_pos hb]
      calc ⌈a⌉ ≤ ⌈(0 : ℚ)⌉ := Int.ceil_mono ha.le
        _ = 0 := Int.ceil_zero
        _ ≤ ⌊b⌋ := Int.le_floor.mpr (by exact_mod_cast hb)
    · rw [if_neg (not_le.mpr hb)]
      exact Int.ceil_mono h

/-- The callback value sequence is the truncated-percentage image of the
reported progress values. -/
theorem progress_values_eq_map (reports : List (Option ℚ)) :
    progress_values reports = (reports.filterMap id).map (fun p => pyInt (p * 100)) := by
  induction reports with
  | nil => rfl
  | cons o t ih => rcases o with _ | p <;> simp [progress_values, ih] <;>
      simpa [progress_values] using ih

/-- C7 counterexample: at a chunk reporting fractional progress 999/1000
the code passes `int(progress*100) = 99` to the callback, while the
claimed `round(progress*100)` is 100 — the passed value is not the rounded
value. -/
theorem progress_value_truncates_not_rounds :
    progress_values [some (999 / 1000)] = [99] ∧
    spec_round_progress_values [some (999 / 1000)] = [100] ∧
    progress_values [some (999 / 1000)] ≠ spec_round_progress_values [some (999 / 1000)] := by
  have hfloor : ⌊(999 / 1000 : ℚ) * 100⌋ = 99 := by
    rw [Int.floor_eq_iff]
    norm_num
  have h1 : progress_values [some (999 / 1000)] = [99] := by
    show [pyInt ((999 / 1000 : ℚ) * 100)] = [99]
    unfold pyInt
    rw [if_pos (by norm_num), hfloor]
  have h2 : spec_round_progress_values [some (999 / 1000)] = [100] := by
    show [pyRound ((999 / 1000 : ℚ) * 100)] = [100]
    unfold pyRound
    rw [hfloor, if_neg (by norm_num), if_pos (by norm_num)]
    norm_num
  refine ⟨h1, h2, ?_⟩
  rw [h1, h2]
  simp

/-- C7 (amended): every callback invocation passes the truncation
`int(progress*100)` of the chunk's reported fractional progress; assuming
each reported progress lies in [0,1], every passed value lies in [0,100];
assuming the reported progresses are non-decreasing, so are the passed
values; and when the final reported progress is exactly 1, the final
invocation passes exactly 100. -/
theorem progress_values_spec (reports : List (Option ℚ))
    (hbound : ∀ p ∈ reports.filterMap id, 0 ≤ p ∧ p ≤ 1) :
    (∀ v ∈ progress_values reports, 0 ≤ v ∧ v ≤ 100) ∧
    (List.Chain' (· ≤ ·) (reports.filterMap id) →
      List.Chain' (· ≤ ·) (progress_values reports)) ∧
    ((reports.filterMap id).getLast? = some 1 →
      (progress_values reports).getLast? = some 100) := by
  refine ⟨?_, ?_, ?_⟩
  · intro v hv
    rw [progress_values_eq_map] at hv
    obtain ⟨p, hp, rfl⟩ := List.mem_map.mp hv
    obtain ⟨hp0, hp1⟩ := hbound p hp
    have h100 : (0 : ℚ) ≤ p * 100 := by positivity
    constructor
    · simp only [pyInt, if_pos h100]
      exact Int.le_floor.mpr (by exact_mod_cast h100)
    · simp only [pyInt, if_pos h100]
      have : (p * 100 : ℚ) ≤ 100 := by nlinarith
      calc ⌊p * 100⌋ ≤ ⌊(100 : ℚ)⌋ := Int.floor_mono this
        _ = 100 := by norm_num
  · intro hchain
    rw [progress_values_eq_map]
    exact (List.chain'_map _).mpr (hchain.imp fun a b hab =>
      pyInt_mono (mul_le_mul_of_nonneg_right hab (by norm_num)))
  · intro hlast
    rw [progress_values_eq_map, List.getLast?_map, hlast]
    show some (pyInt ((1 : ℚ) * 100)) = some 100
    unfold pyInt
    rw [if_pos (by norm_num)]
    norm_num

/-- Witness for C7's amended theorem at the report sequence
`[none, 1/2, 1]`: callback values `[50, 100]`, within bounds,
non-decreasing, ending at 100. -/
theorem progress_values_spec_witness :
    (∀ p ∈ ([none, some (1 / 2), some 1] : List (Option ℚ)).filterMap id, 0 ≤ p ∧ p ≤ 1) ∧
    (∀ v ∈ progress_values [none, some (1 / 2), some 1], 0 ≤ v ∧ v ≤ 100) ∧
    List.Chain' (· ≤ ·) (progress_values [none, some (1 / 2), some 1]) ∧
    (progress_values [none, some (1 / 2), some 1]).getLast? = some 100 := by
  have hfm : ([none, some (1 / 2), some 1] : List (Option ℚ)).filterMap id = [1 / 2, 1] := rfl
  have hbound : ∀ p ∈ ([none, some (1 / 2), some 1] : List (Option ℚ)).filterMap id,
      0 ≤ p ∧ p ≤ 1 := by
    rw [hfm]
    intro p hp
    rcases List.mem_cons.mp hp with rfl | hp
    · norm_num
    · rcases List.mem_singleton.mp hp with rfl
      norm_num
  have h := progress_values_spec [none, some (1 / 2), some 1] hbound
  refine ⟨hbound, h.1, h.2.1 ?_, h.2.2 ?_⟩
  · rw [hfm]
    exact List.chain'_cons.mpr ⟨by norm_num, List.chain'_singleton 1⟩
  · rw [hfm]
    rfl

/-- The collision loop starting at candidate `c` lands on candidate `k`
when the candidates before `k` are taken and candidate `k` is free. -/
theorem resolve_target_finds (taken : List String) (desired : String) :
    ∀ (fuel c k : Nat), c ≤ k → k - c < fuel →
      suffixCandidate desired k ∉ taken →
      (∀ j, c ≤ j → j < k → suffixCandidate desired j ∈ taken) →
      resolve_target taken desired fuel c = some (suffixCandidate desired k) := by
  intro fuel
  induction fuel with
  | zero => intro c k hck hlt _ _; omega
  | succ n ih =>
    intro c k hck hlt hfree htaken
    simp only [resolve_target]
    rcases eq_or_lt_of_le hck with rfl | hck2
    · rw [if_neg hfree]
    · rw [if_pos (htaken c le_rfl hck2)]
      exact ih (c + 1) k (by omega) (by omega) hfree (fun j h1 h2 => htaken j (by omega) h2)

/-- C8: when the backend-reported file exists it is renamed to the desired
canonical name; when the first `k` candidate names (`desired`, then
`…_1`, `…_2`, …) are taken and candidate `k` is free, the resolved name is
candidate `k`; candidate 0 is the desired name itself, and every later
candidate inserts `_k` before the desired name's extension, preserving it. -/
theorem rename_recording_file_collision (taken : List String) (desired : String)
    (fuel k : Nat) (hk : k < fuel)
    (hfree : suffixCandidate desired k ∉ taken)
    (htaken : ∀ j, j < k → suffixCandidate desired j ∈ taken) :
    rename_recording_file true taken desired fuel = some (suffixCandidate desired k) ∧
    suffixCandidate desired 0 = desired ∧
    (∀ base ext j, pyRsplit1Dot desired = (base, some ext) → 1 ≤ j →
      suffixCandidate desired j = base ++ "_" ++ toString j ++ "." ++ ext) := by
  refine ⟨?_, rfl, ?_⟩
  · show resolve_target taken desired fuel 0 = some (suffixCandidate desired k)
    exact resolve_target_finds taken desired fuel 0 k (Nat.zero_le k) (by omega) hfree
      (fun j _ h2 => htaken j h2)
  · intro base ext j hsplit hj
    have hj0 : j ≠ 0 := by omega
    simp [suffixCandidate, hj0, hsplit]

/-- Witness for C8: desired name `r.mp4` with `r.mp4` and `r_1.mp4` both
taken resolves to `r_2.mp4`, keeping the `.mp4` extension. -/
theorem rename_recording_file_collision_witness :
    suffixCandidate "r.mp4" 2 ∉ ["r.mp4", "r_1.mp4"] ∧
    (∀ j, j < 2 → suffixCandidate "r.mp4" j ∈ ["r.mp4", "r_1.mp4"]) ∧
    rename_recording_file true ["r.mp4", "r_1.mp4"] "r.mp4" 5 = some "r_2.mp4" := by
  have h := rename_recording_file_collision ["r.mp4", "r_1.mp4"] "r.mp4" 5 2
    (by omega) (by decide) (by decide)
  exact ⟨by decide, by decide, h.1.trans (by decide)⟩

end ObsDrive
